import Mathlib

/-!
Shallow embedding of the DCAP marketplace core (negotiation state machine,
trust/reputation engine, settlement router) and proofs of its specified
properties.  Agent and transaction identifiers are modelled as naturals,
timestamps as integer seconds since an arbitrary epoch, and money amounts
as rationals.  Fresh UUIDs generated inside the Rust functions are passed
in as explicit parameters.
-/

namespace DCAP

/-- Error type of the crate (src/error.rs, NegotiationError).  Foreign
error payloads (sqlx, reqwest) are modelled as their display strings. -/
inductive NegotiationError where
  | Config : String → NegotiationError
  | Auth : String → NegotiationError
  | Negotiation : String → NegotiationError
  | Database : String → NegotiationError
  | Network : String → NegotiationError
  | Serialization : String → NegotiationError
  | Payment : String → NegotiationError
  | Trust : String → NegotiationError
  | Validation : String → NegotiationError
  | Io : String → NegotiationError
  | AgentNotFound : ℕ → NegotiationError
  | ProductNotFound : String → NegotiationError
  | QuoteExpired : NegotiationError
  | InsufficientReputation : ℤ → NegotiationError
  | InvalidInput : String → NegotiationError
deriving DecidableEq, Repr

/-- Trust tiers (src/trust.rs, TrustLevel). -/
inductive TrustLevel where
  | Untrusted
  | Neutral
  | Trusted
  | HighlyTrusted
deriving DecidableEq, Repr

/-- TrustLevel::from (src/trust.rs lines 31-40): band match on the score.
Scores are u32 in the source; the model uses ℤ and all stored scores are
clamped to [0,100] before this is applied. -/
def TrustLevel.fromScore (score : ℤ) : TrustLevel :=
  if score ≤ 49 then TrustLevel.Untrusted
  else if score ≤ 74 then TrustLevel.Neutral
  else if score ≤ 89 then TrustLevel.Trusted
  else TrustLevel.HighlyTrusted

/-- ReputationScore (src/trust.rs lines 10-20): the cached per-agent entry. -/
structure ReputationScore where
  agent_id : ℕ
  score : ℤ
  successful_transactions : ℕ
  failed_transactions : ℕ
  total_negotiations : ℕ
  average_response_time_ms : ℕ
  last_updated : ℤ
  trust_level : TrustLevel
deriving DecidableEq, Repr

/-- TrustSystem (src/trust.rs lines 74-78): jwt secret, reputation cache
(HashMap modelled as a map to Option), and the cache TTL in seconds. -/
structure TrustSystem where
  jwt_secret : String
  reputation_cache : ℕ → Option ReputationScore
  cache_ttl : ℤ

/-- TrustSystem::new (src/trust.rs lines 81-90) with the default secret:
empty cache, 30-minute TTL. -/
def TrustSystem.new : TrustSystem :=
  { jwt_secret := "your-secret-key-here"
    reputation_cache := fun _ => none
    cache_ttl := 30 * 60 }

/-- TrustSystem::get_reputation (src/trust.rs lines 92-102): the cached
score when the entry is younger than the TTL, otherwise 0. -/
def TrustSystem.get_reputation (t : TrustSystem) (agent_id : ℕ) (now : ℤ) : ℤ :=
  match t.reputation_cache agent_id with
  | some cached => if now - cached.last_updated < t.cache_ttl then cached.score else 0
  | none => 0

/-- TrustSystem::update_reputation (src/trust.rs lines 104-133): read the
current score through the cache, add the delta, clamp to [0,100], insert a
fresh entry.  The activity log goes to tracing only, so it carries no state. -/
def TrustSystem.update_reputation (t : TrustSystem) (agent_id : ℕ)
    (score_change : ℤ) (now : ℤ) : TrustSystem :=
  let current_score := t.get_reputation agent_id now
  let new_score := min 100 (max 0 (current_score + score_change))
  { t with reputation_cache := fun a =>
      if a = agent_id then
        some { agent_id := agent_id
               score := new_score
               successful_transactions := 0
               failed_transactions := 0
               total_negotiations := 0
               average_response_time_ms := 0
               last_updated := now
               trust_level := TrustLevel.fromScore new_score }
      else t.reputation_cache a }

/-- TrustSystem::record_successful_transaction (src/trust.rs lines 135-162):
+5 to the buyer, then +5 to the seller. -/
def TrustSystem.record_successful_transaction (t : TrustSystem)
    (buyer_id seller_id : ℕ) (now : ℤ) : TrustSystem :=
  (t.update_reputation buyer_id 5 now).update_reputation seller_id 5 now

/-- TrustSystem::record_failed_transaction (src/trust.rs lines 164-191):
-3 to the buyer, then -3 to the seller. -/
def TrustSystem.record_failed_transaction (t : TrustSystem)
    (buyer_id seller_id : ℕ) (now : ℤ) : TrustSystem :=
  (t.update_reputation buyer_id (-3) now).update_reputation seller_id (-3) now

/-- The reputation updates that BuyerAgent::accept_quote performs after a
successful payment (src/agent.rs lines 190-191): +5 to the seller, then
+3 to the buyer. -/
def accept_quote_reputation_updates (t : TrustSystem)
    (buyer_id seller_id : ℕ) (now : ℤ) : TrustSystem :=
  (t.update_reputation seller_id 5 now).update_reputation buyer_id 3 now

/-- A finite sequence of update_reputation calls for one agent; each list
element is a (delta, call-time) pair, applied left to right. -/
def apply_reputation_updates (t : TrustSystem) (agent_id : ℕ)
    (updates : List (ℤ × ℤ)) : TrustSystem :=
  List.foldl (fun acc u => acc.update_reputation agent_id u.1 u.2) t updates

/-- Product (src/model.rs lines 28-38). -/
structure Product where
  id : String
  name : String
  description : String
  category : String
  base_price : ℚ
  currency : String
  stock_quantity : ℕ
  metadata : List (String × String)
deriving DecidableEq, Repr

/-- RFQ (src/model.rs lines 40-51). -/
structure RFQ where
  id : ℕ
  buyer_id : ℕ
  product_id : String
  quantity : ℕ
  max_price : ℚ
  currency : String
  delivery_location : Option String
  deadline : ℤ
  metadata : List (String × String)
deriving DecidableEq, Repr

/-- RFQ::new (src/model.rs lines 140-159); the fresh UUID is a parameter. -/
def RFQ.new (id : ℕ) (buyer_id : ℕ) (product_id : String) (quantity : ℕ)
    (max_price : ℚ) (currency : String) (deadline : ℤ) : RFQ :=
  { id := id
    buyer_id := buyer_id
    product_id := product_id
    quantity := quantity
    max_price := max_price
    currency := currency
    delivery_location := none
    deadline := deadline
    metadata := [] }

/-- RFQ::validate (src/model.rs lines 161-172). -/
def RFQ.validate (rfq : RFQ) (now : ℤ) : Except NegotiationError Unit :=
  if rfq.quantity = 0 then
    Except.error (NegotiationError.Validation "Quantity must be greater than 0")
  else if rfq.max_price ≤ 0 then
    Except.error (NegotiationError.Validation "Max price must be greater than 0")
  else if rfq.deadline ≤ now then
    Except.error (NegotiationError.Validation "Deadline must be in the future")
  else Except.ok ()

/-- Quote (src/model.rs lines 53-65). -/
structure Quote where
  id : ℕ
  rfq_id : ℕ
  seller_id : ℕ
  price : ℚ
  currency : String
  available_quantity : ℕ
  delivery_estimate : Option String
  ttl_seconds : ℕ
  metadata : List (String × String)
  created_at : ℤ
deriving DecidableEq, Repr

/-- Quote::new (src/model.rs lines 176-196); fresh UUID and the creation
time are parameters. -/
def Quote.new (id : ℕ) (rfq_id : ℕ) (seller_id : ℕ) (price : ℚ)
    (currency : String) (available_quantity : ℕ) (ttl_seconds : ℕ)
    (now : ℤ) : Quote :=
  { id := id
    rfq_id := rfq_id
    seller_id := seller_id
    price := price
    currency := currency
    available_quantity := available_quantity
    delivery_estimate := none
    ttl_seconds := ttl_seconds
    metadata := []
    created_at := now }

/-- Quote::is_expired (src/model.rs lines 198-200). -/
def Quote.is_expired (q : Quote) (now : ℤ) : Bool :=
  decide (q.created_at + (q.ttl_seconds : ℤ) < now)

/-- NegotiationStatus (src/model.rs lines 85-95). -/
inductive NegotiationStatus where
  | Pending
  | Quoted
  | Negotiating
  | Accepted
  | Rejected
  | Expired
  | Settled
deriving DecidableEq, Repr

/-- MessageType (src/model.rs lines 107-116). -/
inductive MessageType where
  | RFQ
  | Quote
  | CounterOffer
  | Accept
  | Reject
  | Info
deriving DecidableEq, Repr

/-- NegotiationMessage (src/model.rs lines 97-105). -/
structure NegotiationMessage where
  id : ℕ
  negotiation_id : ℕ
  sender_id : ℕ
  content : String
  message_type : MessageType
  created_at : ℤ
deriving DecidableEq, Repr

/-- Negotiation (src/model.rs lines 67-83). -/
structure Negotiation where
  id : ℕ
  rfq_id : ℕ
  quote_id : Option ℕ
  buyer_id : ℕ
  seller_id : ℕ
  product_id : String
  quantity : ℕ
  opening_bid : ℚ
  close_price : Option ℚ
  delta : Option ℚ
  status : NegotiationStatus
  messages : List NegotiationMessage
  created_at : ℤ
  updated_at : ℤ
deriving DecidableEq, Repr

/-- NegotiationRecord (src/model.rs lines 118-129). -/
structure NegotiationRecord where
  buyer_id : ℕ
  seller_id : ℕ
  product_hash : String
  opening_bid : ℚ
  close_price : ℚ
  delta : ℚ
  timestamp : ℤ
  duration_seconds : ℤ
  message_count : ℕ
deriving DecidableEq, Repr

/-- Negotiation::new (src/model.rs lines 217-234): opening_bid is the
RFQ's max price, status starts Pending. -/
def Negotiation.new (id : ℕ) (rfq : RFQ) (seller_id : ℕ) (now : ℤ) : Negotiation :=
  { id := id
    rfq_id := rfq.id
    quote_id := none
    buyer_id := rfq.buyer_id
    seller_id := seller_id
    product_id := rfq.product_id
    quantity := rfq.quantity
    opening_bid := rfq.max_price
    close_price := none
    delta := none
    status := NegotiationStatus.Pending
    messages := []
    created_at := now
    updated_at := now }

/-- Negotiation::add_quote (src/model.rs lines 236-244): fails when a
quote is already attached, otherwise records the quote id and moves to
Quoted.  The Rust method mutates in place and returns Result of unit; the
model returns the updated negotiation, and on error the caller's value is
untouched. -/
def Negotiation.add_quote (n : Negotiation) (quote : Quote) (now : ℤ) :
    Except NegotiationError Negotiation :=
  if n.quote_id.isSome then
    Except.error (NegotiationError.Negotiation "Quote already exists for this negotiation")
  else
    Except.ok { n with
      quote_id := some quote.id
      status := NegotiationStatus.Quoted
      updated_at := now }

/-- Negotiation::accept (src/model.rs lines 246-255): only from Quoted or
Negotiating; sets close_price, delta = final_price - opening_bid, and the
Accepted status. -/
def Negotiation.accept (n : Negotiation) (final_price : ℚ) (now : ℤ) :
    Except NegotiationError Negotiation :=
  if n.status ≠ NegotiationStatus.Quoted ∧ n.status ≠ NegotiationStatus.Negotiating then
    Except.error (NegotiationError.Negotiation "Cannot accept negotiation in current state")
  else
    Except.ok { n with
      close_price := some final_price
      delta := some (final_price - n.opening_bid)
      status := NegotiationStatus.Accepted
      updated_at := now }

/-- Negotiation::reject (src/model.rs lines 257-264). -/
def Negotiation.reject (n : Negotiation) (now : ℤ) :
    Except NegotiationError Negotiation :=
  if n.status ≠ NegotiationStatus.Quoted ∧ n.status ≠ NegotiationStatus.Negotiating then
    Except.error (NegotiationError.Negotiation "Cannot reject negotiation in current state")
  else
    Except.ok { n with
      status := NegotiationStatus.Rejected
      updated_at := now }

/-- Negotiation::settle (src/model.rs lines 266-273): only from Accepted,
moves to Settled. -/
def Negotiation.settle (n : Negotiation) (now : ℤ) :
    Except NegotiationError Negotiation :=
  if n.status ≠ NegotiationStatus.Accepted then
    Except.error (NegotiationError.Negotiation "Cannot settle unaccepted negotiation")
  else
    Except.ok { n with
      status := NegotiationStatus.Settled
      updated_at := now }

/-- Negotiation::to_record (src/model.rs lines 275-291). -/
def Negotiation.to_record (n : Negotiation) : Option NegotiationRecord :=
  match n.close_price, n.delta with
  | some close_price, some delta =>
      some { buyer_id := n.buyer_id
             seller_id := n.seller_id
             product_hash := n.product_id
             opening_bid := n.opening_bid
             close_price := close_price
             delta := delta
             timestamp := n.created_at
             duration_seconds := n.updated_at - n.created_at
             message_count := n.messages.length }
  | _, _ => none

/-- PaymentMethod (src/model.rs lines 131-137). -/
inductive PaymentMethod where
  | Stripe
  | Solana
  | Escrow
deriving DecidableEq, Repr

/-- SellerAgentConfig (src/agent.rs lines 26-34), without the LLM client
configuration (transport/LLM concerns are outside the embedded core). -/
structure SellerAgentConfig where
  agent_id : ℕ
  name : String
  endpoint : String
  products : List Product
  payment_methods : List PaymentMethod
deriving DecidableEq, Repr

/-- SellerAgent::calculate_dynamic_pricing (src/agent.rs lines 352-375):
starts from 1.0 and multiplies in the volume discount (quantity above 10),
the reputation bonus (reputation at least 80), the business-hours
surcharge (hour of day within 9..17) and the fixed demand factor 1.01.
The hour that the source reads from the wall clock is a parameter. -/
def calculate_dynamic_pricing (rfq : RFQ) (buyer_reputation : ℤ) (hour : ℕ) : ℚ :=
  let factor : ℚ := 1
  let factor := if rfq.quantity > 10 then factor * (95 / 100) else factor
  let factor := if buyer_reputation ≥ 80 then factor * (98 / 100) else factor
  let factor := if 9 ≤ hour ∧ hour ≤ 17 then factor * (102 / 100) else factor
  factor * (101 / 100)

/-- SellerAgent::handle_rfq (src/agent.rs lines 283-312): product lookup,
stock check, minimum-reputation gate at 50, then price = base price times
the dynamic pricing factor, packaged as a 1-hour-TTL quote.  The fresh
quote UUID and the wall-clock readings (time, hour of day) are parameters. -/
def handle_rfq (config : SellerAgentConfig) (trust : TrustSystem)
    (rfq : RFQ) (quote_id : ℕ) (now : ℤ) (hour : ℕ) :
    Except NegotiationError Quote :=
  match config.products.find? (fun p => p.id = rfq.product_id) with
  | none => Except.error (NegotiationError.ProductNotFound rfq.product_id)
  | some product =>
    if rfq.quantity > product.stock_quantity then
      Except.error (NegotiationError.Validation "Insufficient stock")
    else
      let buyer_reputation := trust.get_reputation rfq.buyer_id now
      if buyer_reputation < 50 then
        Except.error (NegotiationError.InsufficientReputation buyer_reputation)
      else
        let base_price := product.base_price * (rfq.quantity : ℚ)
        let dynamic_pricing_factor := calculate_dynamic_pricing rfq buyer_reputation hour
        let final_price := base_price * dynamic_pricing_factor
        Except.ok (Quote.new quote_id rfq.id config.agent_id final_price
          product.currency rfq.quantity 3600 now)

/-- The counter-offer validation at the head of BuyerAgent::negotiate
(src/agent.rs lines 140-142): the guard runs before any change to the
negotiation, so a failure here leaves the negotiation exactly as it was. -/
def negotiate_counter_check (n : Negotiation) (counter_offer : ℚ) :
    Except NegotiationError Unit :=
  if counter_offer ≤ n.opening_bid then
    Except.error (NegotiationError.Validation "Counter offer must be less than opening bid")
  else Except.ok ()

/-- SettlementConfig (src/settlement.rs lines 10-15). -/
structure SettlementConfig where
  stripe_secret_key : Option String
  solana_rpc_url : Option String
  escrow_service_url : Option String
deriving DecidableEq, Repr

/-- PaymentStatus (src/settlement.rs lines 42-51). -/
inductive PaymentStatus where
  | Pending
  | Processing
  | Succeeded
  | Failed
  | Cancelled
  | Refunded
deriving DecidableEq, Repr

/-- PaymentRequest (src/settlement.rs lines 17-27). -/
structure PaymentRequest where
  transaction_id : ℕ
  buyer_id : ℕ
  seller_id : ℕ
  amount : ℚ
  currency : String
  payment_method : PaymentMethod
  description : String
  metadata : List (String × String)
deriving DecidableEq, Repr

/-- PaymentResult (src/settlement.rs lines 29-40). -/
structure PaymentResult where
  success : Bool
  payment_id : String
  transaction_id : ℕ
  amount : ℚ
  currency : String
  status : PaymentStatus
  created_at : ℤ
  completed_at : Option ℤ
  error_message : Option String
deriving DecidableEq, Repr

/-- EscrowStatus (src/settlement.rs lines 68-75). -/
inductive EscrowStatus where
  | Active
  | Released
  | Refunded
  | Expired
deriving DecidableEq, Repr

/-- EscrowHold (src/settlement.rs lines 53-66). -/
structure EscrowHold where
  id : ℕ
  transaction_id : ℕ
  buyer_id : ℕ
  seller_id : ℕ
  amount : ℚ
  currency : String
  hold_duration_seconds : ℕ
  created_at : ℤ
  expires_at : ℤ
  status : EscrowStatus
  release_conditions : List String
deriving DecidableEq, Repr

/-- SettlementService (src/settlement.rs lines 77-80): the only state the
service holds is its configuration. -/
structure SettlementService where
  config : SettlementConfig
deriving DecidableEq, Repr

/-- SettlementService::process_stripe_payment (src/settlement.rs lines
119-134); the generated payment UUID and the wall clock are parameters. -/
def process_stripe_payment (request : PaymentRequest) (pid : ℕ) (now : ℤ) :
    PaymentResult :=
  { success := true
    payment_id := "stripe_" ++ toString pid
    transaction_id := request.transaction_id
    amount := request.amount
    currency := request.currency
    status := PaymentStatus.Succeeded
    created_at := now
    completed_at := some now
    error_message := none }

/-- SettlementService::process_solana_payment (src/settlement.rs lines
136-150). -/
def process_solana_payment (request : PaymentRequest) (pid : ℕ) (now : ℤ) :
    PaymentResult :=
  { success := true
    payment_id := "sol_" ++ toString pid
    transaction_id := request.transaction_id
    amount := request.amount
    currency := request.currency
    status := PaymentStatus.Succeeded
    created_at := now
    completed_at := some now
    error_message := none }

/-- SettlementService::process_escrow_payment (src/settlement.rs lines
152-185).  The Rust function constructs the EscrowHold locally (lines
154-169), logs it, and returns only the PaymentResult; the model returns
the constructed hold alongside the result so that its fields can be
inspected.  The hold's fresh UUID and the wall clock are parameters. -/
def process_escrow_payment (request : PaymentRequest) (hold_id : ℕ) (now : ℤ) :
    EscrowHold × PaymentResult :=
  let escrow_hold : EscrowHold :=
    { id := hold_id
      transaction_id := request.transaction_id
      buyer_id := request.buyer_id
      seller_id := request.seller_id
      amount := request.amount
      currency := request.currency
      hold_duration_seconds := 7 * 24 * 3600
      created_at := now
      expires_at := now + 7 * 24 * 3600
      status := EscrowStatus.Active
      release_conditions := ["Delivery confirmed", "Quality verified"] }
  (escrow_hold,
    { success := true
      payment_id := "escrow_" ++ toString escrow_hold.id
      transaction_id := request.transaction_id
      amount := request.amount
      currency := request.currency
      status := PaymentStatus.Pending
      created_at := now
      completed_at := none
      error_message := none })

/-- SettlementService::process_payment (src/settlement.rs lines 111-117):
dispatch on the payment method.  For the escrow rail only the
PaymentResult leaves the function; the constructed hold is dropped. -/
def process_payment (request : PaymentRequest) (pid : ℕ) (now : ℤ) :
    PaymentResult :=
  match request.payment_method with
  | PaymentMethod.Stripe => process_stripe_payment request pid now
  | PaymentMethod.Solana => process_solana_payment request pid now
  | PaymentMethod.Escrow => (process_escrow_payment request pid now).2

/-- SettlementService::release_escrow (src/settlement.rs lines 187-202):
builds a fresh Succeeded PaymentResult from the escrow id.  It reads or
writes no hold; the generated transaction UUID and the wall clock are
parameters. -/
def release_escrow (escrow_id : ℕ) (txn_id : ℕ) (now : ℤ) : PaymentResult :=
  { success := true
    payment_id := "escrow_release_" ++ toString escrow_id
    transaction_id := txn_id
    amount := 0
    currency := "USD"
    status := PaymentStatus.Succeeded
    created_at := now
    completed_at := some now
    error_message := none }

/-- The full escrow round trip: create the hold via the escrow rail, then
invoke release_escrow on that hold's id.  The hold in the first component
is the only hold state the service ever produces (it stores none). -/
def escrow_flow (request : PaymentRequest) (hold_id : ℕ) (now : ℤ)
    (txn_id : ℕ) (now2 : ℤ) : EscrowHold × PaymentResult × PaymentResult :=
  let created := process_escrow_payment request hold_id now
  (created.1, created.2, release_escrow created.1.id txn_id now2)

/-- SettlementService::validate_webhook_signature (src/settlement.rs lines
249-253): the in-repo stand-in accepts every payload. -/
def validate_webhook_signature (_payload _signature : String) : Bool := true

/-- Modelled from the spec: the per-rail webhook signature validator
(validate_webhook(payload, signature) -> bool) is an external
payment-processor gateway the core consumes but does not implement; the
in-repo validate_webhook_signature is a stand-in that always accepts.
handle_webhook (src/settlement.rs lines 234-247) is therefore embedded
parametrically over the validator: it checks the signature first and
rejects with a Payment error before anything else happens; the service
state is returned unchanged on success (the Rust method takes an immutable
reference and holds no payment state). -/
def handle_webhook (svc : SettlementService) (validate : String → String → Bool)
    (payload signature : String) : Except NegotiationError SettlementService :=
  if !(validate payload signature) then
    Except.error (NegotiationError.Payment "Invalid webhook signature")
  else
    Except.ok svc

/-- SettlementService::validate_payment_method (src/settlement.rs lines
273-279): a rail is usable only when its configuration is present. -/
def validate_payment_method (svc : SettlementService) (method : PaymentMethod) : Bool :=
  match method with
  | PaymentMethod.Stripe => svc.config.stripe_secret_key.isSome
  | PaymentMethod.Solana => svc.config.solana_rpc_url.isSome
  | PaymentMethod.Escrow => svc.config.escrow_service_url.isSome

/-! Concrete fixtures used to exercise the definitions. -/

/-- A concrete RFQ: buyer 2 asks for 5 units of prod-1 at a 100 ceiling. -/
def exRfq : RFQ := RFQ.new 1 2 "prod-1" 5 100 "USD" 1000

/-- A concrete fresh negotiation built from exRfq with seller 3. -/
def exNeg : Negotiation := Negotiation.new 10 exRfq 3 0

/-- exNeg after the seller's quote arrived (status Quoted). -/
def exQuoted : Negotiation := { exNeg with status := NegotiationStatus.Quoted }

/-- exNeg in the Accepted state. -/
def exAccepted : Negotiation := { exNeg with status := NegotiationStatus.Accepted }

/-- exNeg with a quote reference already attached. -/
def exWithQuote : Negotiation := { exNeg with quote_id := some 7 }

/-- A concrete quote for exRfq from seller 3. -/
def exQuote : Quote := Quote.new 7 1 3 90 "USD" 5 3600 0

/-- Claim C1: the counter-offer guard in BuyerAgent::negotiate is inverted
relative to the specified rule and to its own error message.  On a
negotiation whose opening_bid is 100, the counter-offer 90 — strictly
below the opening bid, which the spec says must pass — is rejected with
the Validation error, while 110 — not below the opening bid, which the
spec says must fail — passes the check. -/
theorem negotiate_counter_check_inverted :
    negotiate_counter_check exNeg 90 =
      Except.error (NegotiationError.Validation "Counter offer must be less than opening bid")
    ∧ negotiate_counter_check exNeg 110 = Except.ok () := by
  constructor <;> simp [negotiate_counter_check, exNeg, Negotiation.new, exRfq, RFQ.new] <;> norm_num

/-- Claim C3: Negotiation::accept succeeds exactly from Quoted or
Negotiating; from Pending or Rejected it fails for every final price with
the illegal-transition error (the NegotiationError::Negotiation variant,
the Conflict kind of the error taxonomy); and on success it records
close_price = final_price, delta = final_price - opening_bid, and the
Accepted status. -/
theorem accept_characterization (n : Negotiation) (final_price : ℚ) (now : ℤ) :
    ((∃ n1, n.accept final_price now = Except.ok n1) ↔
        (n.status = NegotiationStatus.Quoted ∨ n.status = NegotiationStatus.Negotiating))
    ∧ ((n.status = NegotiationStatus.Pending ∨ n.status = NegotiationStatus.Rejected) →
        n.accept final_price now =
          Except.error (NegotiationError.Negotiation "Cannot accept negotiation in current state"))
    ∧ (∀ n1, n.accept final_price now = Except.ok n1 →
        n1.close_price = some final_price
        ∧ n1.delta = some (final_price - n.opening_bid)
        ∧ n1.status = NegotiationStatus.Accepted) := by
  unfold Negotiation.accept
  by_cases h : n.status ≠ NegotiationStatus.Quoted ∧ n.status ≠ NegotiationStatus.Negotiating
  · rw [if_pos h]
    refine ⟨⟨fun hx => ?_, fun hx => ?_⟩, fun _ => rfl, fun n1 hn1 => by cases hn1⟩
    · obtain ⟨n1, hn1⟩ := hx; cases hn1
    · exact absurd hx (by tauto)
  · rw [if_neg h]
    refine ⟨⟨fun _ => ?_, fun _ => ⟨_, rfl⟩⟩, fun hx => ?_, fun n1 hn1 => ?_⟩
    · tauto
    · rcases hx with hx | hx <;> simp [hx] at h
    · cases hn1
      exact ⟨rfl, rfl, rfl⟩

/-- Witness for claim C3: a concrete Quoted negotiation is accepted. -/
theorem accept_characterization_witness :
    (exQuoted.status = NegotiationStatus.Quoted ∨ exQuoted.status = NegotiationStatus.Negotiating)
    ∧ ∃ n1, exQuoted.accept 50 5 = Except.ok n1 :=
  ⟨Or.inl rfl, (accept_characterization exQuoted 50 5).1.mpr (Or.inl rfl)⟩

/-- Claim C8: Negotiation::settle succeeds exactly from Accepted, moving
the negotiation to Settled; invoking settle again on the settled result
fails with the illegal-transition error (NegotiationError::Negotiation,
the Conflict kind), for any call times, so the caller's state is left as
it was and settlement dispatch happens at most once. -/
theorem settle_at_most_once (n : Negotiation) (now now2 : ℤ) :
    ((∃ n1, n.settle now = Except.ok n1) ↔ n.status = NegotiationStatus.Accepted)
    ∧ (∀ n1, n.settle now = Except.ok n1 →
        n1.status = NegotiationStatus.Settled
        ∧ n1.settle now2 =
            Except.error (NegotiationError.Negotiation "Cannot settle unaccepted negotiation")) := by
  unfold Negotiation.settle
  by_cases h : n.status ≠ NegotiationStatus.Accepted
  · rw [if_pos h]
    refine ⟨⟨fun hx => ?_, fun hx => absurd hx h⟩, fun n1 hn1 => by cases hn1⟩
    obtain ⟨n1, hn1⟩ := hx; cases hn1
  · rw [if_neg h]
    refine ⟨⟨fun _ => not_ne_iff.mp h, fun _ => ⟨_, rfl⟩⟩, fun n1 hn1 => ?_⟩
    cases hn1
    exact ⟨rfl, rfl⟩

/-- Witness for claim C8: a concrete Accepted negotiation settles once and
the second settle call is rejected. -/
theorem settle_at_most_once_witness :
    ∃ n1, exAccepted.settle 5 = Except.ok n1
      ∧ n1.settle 6 =
          Except.error (NegotiationError.Negotiation "Cannot settle unaccepted negotiation") := by
  obtain ⟨n1, hn1⟩ := (settle_at_most_once exAccepted 5 6).1.mpr rfl
  exact ⟨n1, hn1, ((settle_at_most_once exAccepted 5 6).2 n1 hn1).2⟩

/-- The negotiations reachable through the repository's operations: a
fresh Negotiation::new, closed under the successful outcomes of
add_quote, accept, reject and settle. -/
inductive ReachableNegotiation : Negotiation → Prop where
  | new (id : ℕ) (rfq : RFQ) (seller_id : ℕ) (now : ℤ) :
      ReachableNegotiation (Negotiation.new id rfq seller_id now)
  | add_quote {n n1 : Negotiation} (q : Quote) (now : ℤ) :
      ReachableNegotiation n → n.add_quote q now = Except.ok n1 → ReachableNegotiation n1
  | accept {n n1 : Negotiation} (final_price : ℚ) (now : ℤ) :
      ReachableNegotiation n → n.accept final_price now = Except.ok n1 → ReachableNegotiation n1
  | reject {n n1 : Negotiation} (now : ℤ) :
      ReachableNegotiation n → n.reject now = Except.ok n1 → ReachableNegotiation n1
  | settle {n n1 : Negotiation} (now : ℤ) :
      ReachableNegotiation n → n.settle now = Except.ok n1 → ReachableNegotiation n1

/-- Claim C9: no operation ever assigns the Negotiating status — every
negotiation reachable through new, add_quote, accept, reject and settle
has a status other than Negotiating — and once a quote reference is set,
add_quote (hence the buyer's negotiate flow, which records counter-quotes
through it) always fails, so the Negotiating state is unreachable. -/
theorem negotiating_status_unreachable :
    (∀ n, ReachableNegotiation n → n.status ≠ NegotiationStatus.Negotiating)
    ∧ (∀ (n : Negotiation) (q : Quote) (now : ℤ), n.quote_id.isSome →
        n.add_quote q now =
          Except.error (NegotiationError.Negotiation "Quote already exists for this negotiation")) := by
  constructor
  · intro n h
    induction h with
    | new id rfq seller_id now => simp [Negotiation.new]
    | add_quote q now hr hok ih =>
        unfold Negotiation.add_quote at hok
        split at hok
        · cases hok
        · cases hok; simp
    | accept final_price now hr hok ih =>
        unfold Negotiation.accept at hok
        split at hok
        · cases hok
        · cases hok; simp
    | reject now hr hok ih =>
        unfold Negotiation.reject at hok
        split at hok
        · cases hok
        · cases hok; simp
    | settle now hr hok ih =>
        unfold Negotiation.settle at hok
        split at hok
        · cases hok
        · cases hok; simp
  · intro n q now hq
    simp [Negotiation.add_quote, hq]

/-- Witness for claim C9: the concrete fresh negotiation is reachable and
not Negotiating, and attaching to a negotiation that already holds a
quote reference fails. -/
theorem negotiating_status_unreachable_witness :
    exNeg.status ≠ NegotiationStatus.Negotiating
    ∧ exWithQuote.add_quote exQuote 1 =
        Except.error (NegotiationError.Negotiation "Quote already exists for this negotiation") :=
  ⟨negotiating_status_unreachable.1 exNeg (ReachableNegotiation.new 10 exRfq 3 0),
   negotiating_status_unreachable.2 exWithQuote exQuote 1 rfl⟩

/-! Helper lemmas about the trust engine. -/

/-- The entry a single update_reputation call stores for its agent. -/
lemma update_reputation_self_score (t : TrustSystem) (a : ℕ) (d now : ℤ) :
    ∃ e, (t.update_reputation a d now).reputation_cache a = some e
      ∧ e.score = min 100 (max 0 (t.get_reputation a now + d))
      ∧ e.last_updated = now := by
  refine ⟨{ agent_id := a
            score := min 100 (max 0 (t.get_reputation a now + d))
            successful_transactions := 0
            failed_transactions := 0
            total_negotiations := 0
            average_response_time_ms := 0
            last_updated := now
            trust_level := TrustLevel.fromScore (min 100 (max 0 (t.get_reputation a now + d))) },
    ?_, rfl, rfl⟩
  simp [TrustSystem.update_reputation]

/-- The TTL field is untouched by an update. -/
lemma update_reputation_cache_ttl (t : TrustSystem) (a : ℕ) (d now : ℤ) :
    (t.update_reputation a d now).cache_ttl = t.cache_ttl := rfl

/-- Other agents' cache entries are untouched by an update. -/
lemma update_reputation_cache_ne (t : TrustSystem) (a b : ℕ) (d now : ℤ)
    (h : b ≠ a) :
    (t.update_reputation a d now).reputation_cache b = t.reputation_cache b := by
  simp [TrustSystem.update_reputation, h]

/-- Other agents' visible reputation is untouched by an update. -/
lemma get_reputation_update_ne (t : TrustSystem) (a b : ℕ) (d now now2 : ℤ)
    (h : b ≠ a) :
    (t.update_reputation a d now).get_reputation b now2 = t.get_reputation b now2 := by
  simp only [TrustSystem.get_reputation, update_reputation_cache_ne t a b d now h,
    update_reputation_cache_ttl]

/-- Whatever an update stores for its agent is clamped to [0,100]. -/
lemma update_reputation_score_mem (t : TrustSystem) (a : ℕ) (d now : ℤ)
    (e : ReputationScore)
    (h : (t.update_reputation a d now).reputation_cache a = some e) :
    0 ≤ e.score ∧ e.score ≤ 100 := by
  simp [TrustSystem.update_reputation] at h
  subst h
  exact ⟨le_min (by norm_num) (le_max_left 0 _), min_le_left 100 _⟩

/-- Any sequence of updates keeps a clamped entry clamped. -/
lemma apply_reputation_updates_bounds (updates : List (ℤ × ℤ))
    (t : TrustSystem) (agent : ℕ)
    (hinv : ∀ e, t.reputation_cache agent = some e → 0 ≤ e.score ∧ e.score ≤ 100) :
    ∀ e, (apply_reputation_updates t agent updates).reputation_cache agent = some e →
      0 ≤ e.score ∧ e.score ≤ 100 := by
  induction updates generalizing t with
  | nil => exact hinv
  | cons u us ih =>
      intro e he
      refine ih (t.update_reputation agent u.1 u.2) ?_ e ?_
      · exact fun e1 he1 => update_reputation_score_mem t agent u.1 u.2 e1 he1
      · simpa [apply_reputation_updates] using he

/-- Claim C4: starting from an agent unknown to the cache (whose score
reads as 0), every finite sequence of update_reputation calls with
arbitrary integer deltas leaves the stored score within [0,100]; each
prefix of the sequence is itself an instance, so the bound holds after
every call. -/
theorem reputation_score_always_in_range (t : TrustSystem) (agent : ℕ)
    (updates : List (ℤ × ℤ)) (h : t.reputation_cache agent = none) :
    ∀ e, (apply_reputation_updates t agent updates).reputation_cache agent = some e →
      0 ≤ e.score ∧ e.score ≤ 100 :=
  apply_reputation_updates_bounds updates t agent
    (fun e he => by rw [h] at he; cases he)

/-- Witness for claim C4: a fresh trust system, one huge positive delta
followed by a huge negative one, stays within the bounds. -/
theorem reputation_score_always_in_range_witness :
    ∃ e, (apply_reputation_updates TrustSystem.new 0 [(200, 0), (-500, 1)]).reputation_cache 0
        = some e ∧ 0 ≤ e.score ∧ e.score ≤ 100 :=
  ⟨_, rfl, reputation_score_always_in_range TrustSystem.new 0 [(200, 0), (-500, 1)] rfl _ rfl⟩

/-- Claim C10: with the default 30-minute TTL, get_reputation returns the
cached score only for an entry younger than the TTL; with no entry, or an
entry at least 30 minutes old, it returns 0, and an update_reputation call
made while the entry is stale computes the new score from 0 rather than
from the stale stored score. -/
theorem get_reputation_ttl_behavior (t : TrustSystem) (agent : ℕ) (now : ℤ)
    (httl : t.cache_ttl = 30 * 60) :
    (t.reputation_cache agent = none → t.get_reputation agent now = 0)
    ∧ (∀ e, t.reputation_cache agent = some e →
        (now - e.last_updated < 30 * 60 → t.get_reputation agent now = e.score)
        ∧ (30 * 60 ≤ now - e.last_updated →
            t.get_reputation agent now = 0
            ∧ ∀ d : ℤ, ∃ e1,
                (t.update_reputation agent d now).reputation_cache agent = some e1
                ∧ e1.score = min 100 (max 0 (0 + d)))) := by
  constructor
  · intro h
    simp [TrustSystem.get_reputation, h]
  · intro e he
    constructor
    · intro hf
      unfold TrustSystem.get_reputation
      simp only [he, httl]
      exact if_pos hf
    · intro hs
      have hzero : t.get_reputation agent now = 0 := by
        unfold TrustSystem.get_reputation
        simp only [he, httl]
        exact if_neg (not_lt.mpr hs)
      refine ⟨hzero, fun d => ?_⟩
      obtain ⟨e1, he1, hscore, -⟩ := update_reputation_self_score t agent d now
      exact ⟨e1, he1, by rw [hscore, hzero]⟩

/-- A reputation entry 30 minutes stale for agent 0 (score 77, written at
time 0). -/
def exStaleEntry : ReputationScore :=
  { agent_id := 0
    score := 77
    successful_transactions := 0
    failed_transactions := 0
    total_negotiations := 0
    average_response_time_ms := 0
    last_updated := 0
    trust_level := TrustLevel.Trusted }

/-- A trust system holding only the stale entry for agent 0. -/
def exStaleTrust : TrustSystem :=
  { TrustSystem.new with
      reputation_cache := fun a => if a = 0 then some exStaleEntry else none }

/-- Witness for claim C10: exactly at the 30-minute boundary the stale
score 77 reads as 0, and an update of +10 stores 10, not 87. -/
theorem get_reputation_ttl_behavior_witness :
    exStaleTrust.get_reputation 0 1800 = 0
    ∧ ∃ e1, (exStaleTrust.update_reputation 0 10 1800).reputation_cache 0 = some e1
        ∧ e1.score = min 100 (max 0 (0 + 10)) := by
  have h := ((get_reputation_ttl_behavior exStaleTrust 0 1800 rfl).2 exStaleEntry rfl).2
    (by norm_num [exStaleEntry])
  exact ⟨h.1, h.2 10⟩

/-- The trust state produced by the accept_quote settlement flow applied
to a fresh system with buyer 0 and seller 1. -/
def exAcceptFlowTrust : TrustSystem := accept_quote_reputation_updates TrustSystem.new 0 1 0

/-- Counterexample for claim C2: in the settlement flow of
BuyerAgent::accept_quote, after a successful payment on a fresh trust
system, the buyer's stored score is 3, not the claimed 5 — the flow calls
update_reputation with delta 3 for the buyer. -/
theorem accept_quote_buyer_bonus_is_three :
    ∃ e, exAcceptFlowTrust.reputation_cache 0 = some e ∧ e.score = 3 ∧ e.score ≠ 5 := by
  refine ⟨_, rfl, ?_, ?_⟩ <;> decide

/-- Claim C2 (amended): the transaction hooks apply a delta of +5 to both
parties on success and -3 to both on failure (clamped into [0,100] as
always), but the settlement flow in BuyerAgent::accept_quote applies +5
to the seller and only +3 to the buyer. -/
theorem settlement_reputation_deltas (t : TrustSystem) (buyer seller : ℕ)
    (now : ℤ) (hne : buyer ≠ seller) :
    (∃ eb es,
      (t.record_successful_transaction buyer seller now).reputation_cache buyer = some eb
      ∧ eb.score = min 100 (max 0 (t.get_reputation buyer now + 5))
      ∧ (t.record_successful_transaction buyer seller now).reputation_cache seller = some es
      ∧ es.score = min 100 (max 0 (t.get_reputation seller now + 5)))
    ∧ (∃ eb es,
      (t.record_failed_transaction buyer seller now).reputation_cache buyer = some eb
      ∧ eb.score = min 100 (max 0 (t.get_reputation buyer now + (-3)))
      ∧ (t.record_failed_transaction buyer seller now).reputation_cache seller = some es
      ∧ es.score = min 100 (max 0 (t.get_reputation seller now + (-3))))
    ∧ (∃ eb es,
      (accept_quote_reputation_updates t buyer seller now).reputation_cache buyer = some eb
      ∧ eb.score = min 100 (max 0 (t.get_reputation buyer now + 3))
      ∧ (accept_quote_reputation_updates t buyer seller now).reputation_cache seller = some es
      ∧ es.score = min 100 (max 0 (t.get_reputation seller now + 3 - 3 + 5))) := by
  have hsb : seller ≠ buyer := hne.symm
  refine ⟨?_, ?_, ?_⟩
  · obtain ⟨eb, heb, hebs, -⟩ := update_reputation_self_score t buyer 5 now
    obtain ⟨es, hes, hess, -⟩ :=
      update_reputation_self_score (t.update_reputation buyer 5 now) seller 5 now
    refine ⟨eb, es, ?_, hebs, hes, ?_⟩
    · rw [TrustSystem.record_successful_transaction,
        update_reputation_cache_ne _ seller buyer 5 now hne, heb]
    · rw [hess, get_reputation_update_ne t buyer seller 5 now now hsb]
  · obtain ⟨eb, heb, hebs, -⟩ := update_reputation_self_score t buyer (-3) now
    obtain ⟨es, hes, hess, -⟩ :=
      update_reputation_self_score (t.update_reputation buyer (-3) now) seller (-3) now
    refine ⟨eb, es, ?_, hebs, hes, ?_⟩
    · rw [TrustSystem.record_failed_transaction,
        update_reputation_cache_ne _ seller buyer (-3) now hne, heb]
    · rw [hess, get_reputation_update_ne t buyer seller (-3) now now hsb]
  · obtain ⟨es, hes, hess, -⟩ := update_reputation_self_score t seller 5 now
    obtain ⟨eb, heb, hebs, -⟩ :=
      update_reputation_self_score (t.update_reputation seller 5 now) buyer 3 now
    refine ⟨eb, es, heb, ?_, ?_, ?_⟩
    · rw [hebs, get_reputation_update_ne t seller buyer 5 now now hne]
    · rw [accept_quote_reputation_updates,
        update_reputation_cache_ne _ buyer seller 3 now hsb, hes]
    · rw [hess]; ring_nf

/-- Witness for claim C2 (amended): on a fresh system with buyer 0 and
seller 1, a successful-transaction hook stores the clamped +5 for the
buyer. -/
theorem settlement_reputation_deltas_witness :
    ∃ eb, (TrustSystem.new.record_successful_transaction 0 1 0).reputation_cache 0 = some eb
      ∧ eb.score = min 100 (max 0 (TrustSystem.new.get_reputation 0 0 + 5)) := by
  obtain ⟨⟨eb, es, h1, h2, -, -⟩, -, -⟩ :=
    settlement_reputation_deltas TrustSystem.new 0 1 0 (by decide)
  exact ⟨eb, h1, h2⟩

/-- A concrete payment request on the Escrow rail: buyer 2 pays seller 3
an amount of 250 USD. -/
def exEscrowRequest : PaymentRequest :=
  { transaction_id := 1
    buyer_id := 2
    seller_id := 3
    amount := 250
    currency := "USD"
    payment_method := PaymentMethod.Escrow
    description := "Marketplace transaction"
    metadata := [] }

/-- Counterexample for claim C5: after creating the hold through the
escrow rail and invoking release_escrow on that hold's id, the hold —
the only hold state the service ever produces, since it stores none —
still has status Active (the release call returns a Succeeded result but
transitions nothing), so release_escrow does not move the hold to
Released. -/
theorem release_escrow_leaves_hold_active :
    (escrow_flow exEscrowRequest 9 100 11 200).1.status = EscrowStatus.Active
    ∧ EscrowStatus.Active ≠ EscrowStatus.Released
    ∧ (escrow_flow exEscrowRequest 9 100 11 200).2.2.status = PaymentStatus.Succeeded := by
  refine ⟨rfl, by decide, rfl⟩

/-- Claim C5 (amended): a payment request on the Escrow rail makes
process_payment return a Pending result immediately and creates an
EscrowHold whose expires_at equals its created_at plus the fixed 7-day
hold duration and whose status is Active; release_escrow on that hold's
id returns a PaymentResult with status Succeeded, but it does not
transition the hold — the service stores no holds and the created hold's
status remains Active. -/
theorem escrow_payment_behavior (request : PaymentRequest)
    (hold_id pid : ℕ) (now : ℤ) (txn_id : ℕ) (now2 : ℤ)
    (h : request.payment_method = PaymentMethod.Escrow) :
    process_payment request pid now = (process_escrow_payment request pid now).2
    ∧ (process_escrow_payment request hold_id now).2.status = PaymentStatus.Pending
    ∧ (process_escrow_payment request hold_id now).1.expires_at =
        (process_escrow_payment request hold_id now).1.created_at
          + ((process_escrow_payment request hold_id now).1.hold_duration_seconds : ℤ)
    ∧ (process_escrow_payment request hold_id now).1.hold_duration_seconds = 7 * 24 * 3600
    ∧ (process_escrow_payment request hold_id now).1.status = EscrowStatus.Active
    ∧ (release_escrow (process_escrow_payment request hold_id now).1.id txn_id now2).status =
        PaymentStatus.Succeeded
    ∧ (escrow_flow request hold_id now txn_id now2).1.status = EscrowStatus.Active := by
  refine ⟨?_, rfl, ?_, rfl, rfl, rfl, rfl⟩
  · simp [process_payment, h]
  · simp [process_escrow_payment]

/-- Witness for claim C5 (amended): the concrete escrow request at a
concrete clock. -/
theorem escrow_payment_behavior_witness :
    exEscrowRequest.payment_method = PaymentMethod.Escrow
    ∧ (process_escrow_payment exEscrowRequest 9 100).2.status = PaymentStatus.Pending
    ∧ (escrow_flow exEscrowRequest 9 100 11 200).1.status = EscrowStatus.Active :=
  ⟨rfl,
   (escrow_payment_behavior exEscrowRequest 9 9 100 11 200 rfl).2.1,
   (escrow_payment_behavior exEscrowRequest 9 9 100 11 200 rfl).2.2.2.2.2.2⟩

/-- A settlement service with no rail configured. -/
def exSettlementService : SettlementService :=
  { config := { stripe_secret_key := none, solana_rpc_url := none, escrow_service_url := none } }

/-- Claim C6: handle_webhook checks the signature before anything else;
for every payload and signature that the (pluggable, spec-modelled)
validator rejects it returns the Payment error, and in no case does it
change the service's payment state — every successful run returns the
state it was given. -/
theorem webhook_invalid_signature_rejected (svc : SettlementService)
    (validate : String → String → Bool) (payload signature : String) :
    (validate payload signature = false →
      handle_webhook svc validate payload signature =
        Except.error (NegotiationError.Payment "Invalid webhook signature"))
    ∧ (∀ svc1, handle_webhook svc validate payload signature = Except.ok svc1 → svc1 = svc) := by
  unfold handle_webhook
  constructor
  · intro h
    simp [h]
  · intro svc1 h1
    split at h1
    · cases h1
    · cases h1; rfl

/-- Witness for claim C6: a validator that rejects a concrete payload
makes handle_webhook fail without touching state. -/
theorem webhook_invalid_signature_rejected_witness :
    (fun _ _ => false : String → String → Bool) "payload" "sig" = false
    ∧ handle_webhook exSettlementService (fun _ _ => false) "payload" "sig" =
        Except.error (NegotiationError.Payment "Invalid webhook signature") :=
  ⟨rfl,
   (webhook_invalid_signature_rejected exSettlementService (fun _ _ => false) "payload" "sig").1 rfl⟩

/-- Claim C7: for an RFQ of 12 units of a 100-per-unit product placed
during business hours by a buyer with reputation 80, against a seller
with sufficient stock (the minimum-reputation gate is the hardcoded 50),
handle_rfq produces a quote priced at base price 1200 times the volume
discount 0.95, the reputation bonus 0.98, the business-hours surcharge
1.02 and the demand factor 1.01 — and since multiplication commutes, the
same price is obtained with the factors in any other order. -/
theorem handle_rfq_scenario (config : SellerAgentConfig) (trust : TrustSystem)
    (rfq : RFQ) (quote_id : ℕ) (now : ℤ) (hour : ℕ) (product : Product)
    (hfind : config.products.find? (fun p => p.id = rfq.product_id) = some product)
    (hbase : product.base_price = 100)
    (hqty : rfq.quantity = 12)
    (hstock : 12 ≤ product.stock_quantity)
    (hrep : trust.get_reputation rfq.buyer_id now = 80)
    (hh1 : 9 ≤ hour) (hh2 : hour ≤ 17) :
    ∃ q, handle_rfq config trust rfq quote_id now hour = Except.ok q
      ∧ q.price = 1200 * (95 / 100) * (98 / 100) * (102 / 100) * (101 / 100)
      ∧ q.price = 1200 * (101 / 100) * (102 / 100) * (98 / 100) * (95 / 100) := by
  unfold handle_rfq
  simp only [hfind, hrep, hqty, hbase, gt_iff_lt]
  rw [if_neg (by omega)]
  rw [if_neg (by norm_num)]
  refine ⟨_, rfl, ?_, ?_⟩ <;>
  · simp only [Quote.new, calculate_dynamic_pricing, hqty, hh1, hh2]
    norm_num

/-- The seller's catalog product for the C7 scenario: 100 per unit, 20 in
stock. -/
def exProduct : Product :=
  { id := "prod-1"
    name := "Widget"
    description := "A widget"
    category := "hardware"
    base_price := 100
    currency := "USD"
    stock_quantity := 20
    metadata := [] }

/-- The seller configuration for the C7 scenario. -/
def exSellerConfig : SellerAgentConfig :=
  { agent_id := 3
    name := "Seller"
    endpoint := "http://seller"
    products := [exProduct]
    payment_methods := [PaymentMethod.Stripe] }

/-- A trust system in which buyer 5 has a fresh score of 80. -/
def exTrust80 : TrustSystem := TrustSystem.new.update_reputation 5 80 0

/-- The C7 scenario RFQ: buyer 5 asks for 12 units of prod-1. -/
def exRfq12 : RFQ := RFQ.new 1 5 "prod-1" 12 2000 "USD" 9999

/-- Witness for claim C7: the fully concrete scenario at hour 10. -/
theorem handle_rfq_scenario_witness :
    ∃ q, handle_rfq exSellerConfig exTrust80 exRfq12 42 0 10 = Except.ok q
      ∧ q.price = 1200 * (95 / 100) * (98 / 100) * (102 / 100) * (101 / 100) := by
  obtain ⟨q, h1, h2, -⟩ :=
    handle_rfq_scenario exSellerConfig exTrust80 exRfq12 42 0 10 exProduct
      (by decide) rfl rfl (by decide) (by decide) (by decide) (by decide)
  exact ⟨q, h1, h2⟩

end DCAP
